import Mathlib

/-!
Shallow embedding of `influx2mqtt-graph-designer.py`, a trigger-to-query-to-publish
bridge between an InfluxDB time-series store and an MQTT broker.

Modelling conventions:
* `Model.get_data` is embedded over an abstract `backend` function mapping each
  of the seven fixed `(start, stop)` lookback windows to the list of tables the
  store returns, each table being the list of its records' numeric values
  (modelled as exact rationals `ℚ`).  This mirrors
  `tables = self.api.query(q)` followed by the nested iteration over
  `table.records`, with `int(record.get_value())` embedded as `pyInt`.
* `GraphDesigner.make` builds the result dict by `enumerate`; since the keys
  `"0", "1", ...` are pairwise distinct, the Python dict in insertion order is
  represented as an association list.
* `API.__on_connect` / `API.__on_message` are embedded as pure functions
  returning the log records, the number of `trigger_func` invocations, and the
  list of `(topic, payload)` publishes they perform.
* `API.connect` / `API.sub_loop` are embedded as trace functions over the
  possible outcomes of the underlying `paho` `connect` call (success, raising
  `ConnectionError`, raising `KeyboardInterrupt`), recording which statements
  execute and which exception, if any, escapes.
-/

namespace InfluxGraph

/-- Python's `int()` applied to an exact numeric value: truncation toward zero,
computed as the T-division of the numerator by the denominator. -/
def pyInt (q : ℚ) : Int :=
  q.num.tdiv q.den

/-- The single-quote character as a string, used by Python `repr` for string keys. -/
def sq : String :=
  String.singleton (Char.ofNat 39)

/-- Python `str()` of a dict with string keys and integer values in insertion
order, as produced by the f-string `f"{self.trigger_func()}"`. -/
def pyStrDict (entries : List (String × Int)) : String :=
  "\x7b" ++
    String.intercalate ", "
      (entries.map (fun e => sq ++ e.1 ++ sq ++ ": " ++ toString e.2)) ++
    "\x7d"

namespace Model

/-- The seven fixed `(start, stop)` 1-day lookback windows iterated by
`Model.get_data`. -/
def windows : List (String × String) :=
  [("-1d", "0d"), ("-2d", "-1d"), ("-3d", "-2d"),
   ("-4d", "-3d"), ("-5d", "-4d"), ("-6d", "-5d"), ("-7d", "-6d")]

/-- One loop iteration of `Model.get_data`: if the backend returned a nonempty
list of tables (`len(tables) > 0`), yield `int(record.get_value())` for every
record of every table; otherwise yield the sentinel `0`. -/
def windowYield (backend : String × String → List (List ℚ)) (w : String × String) :
    List Int :=
  if 0 < (backend w).length then
    (backend w).flatMap (fun t => t.map pyInt)
  else
    [0]

/-- `Model.get_data`: iterate over the seven lookback windows in order,
concatenating each window's yielded samples. -/
def get_data (backend : String × String → List (List ℚ)) : List Int :=
  windows.flatMap (windowYield backend)

end Model

namespace GraphDesigner

/-- The `for nr, d in enumerate(data)` loop of `GraphDesigner.make`, carrying
the running index `nr`: each element `d` is stored under key `f"{nr}"`. -/
def makeAux (nr : Nat) : List Int → List (String × Int)
  | [] => []
  | d :: rest => (toString nr, d) :: makeAux (nr + 1) rest

/-- `GraphDesigner.make`: enumerate the fully consumed sample sequence into the
insertion-ordered mapping `{"0": d0, "1": d1, ...}`. -/
def make (data : List Int) : List (String × Int) :=
  makeAux 0 data

end GraphDesigner

namespace API

/-- A delivered broker message: topic and (already UTF-8 decoded) payload. -/
structure MQTTMessage where
  topic : String
  payload : String
  deriving DecidableEq

/-- A log record emitted by the embedded handlers. -/
inductive Log where
  | info (s : String)
  | warning (s : String)
  | debug (s : String)
  deriving DecidableEq

/-- `API.__on_connect`: on result code `0` log at info level, otherwise log a
warning; in both branches subscribe to the configured trigger topic.  Returns
the log records and the list of topics subscribed to. -/
def on_connect (trigger : String) (rc : Int) : List Log × List String :=
  if rc = 0 then
    ([Log.info "API is connected"], [trigger])
  else
    ([Log.warning "API is not connected"], [trigger])

/-- `API.__on_message`: always log the message at debug level; if the topic
equals the configured trigger topic, invoke `trigger_func` (wired to
`GraphDesigner.make` over the store's yielded samples) and publish its
stringified result to the post topic.  Returns the log records, the number of
`trigger_func` invocations, and the list of `(topic, payload)` publishes. -/
def on_message (trigger post : String) (samples : List Int) (msg : MQTTMessage) :
    List Log × Nat × List (String × String) :=
  ([Log.debug ("msg: " ++ msg.topic ++ " = " ++ sq ++ msg.payload ++ sq)],
   if msg.topic = trigger then
     (1, [(post, pyStrDict (GraphDesigner.make samples))])
   else
     (0, []))

/-- Possible outcomes of the underlying `paho` `self.api.connect(...)` call. -/
inductive ConnectOutcome where
  | success
  | connectionError
  | keyboardInterrupt
  deriving DecidableEq

/-- Observable steps executed by `API.connect` and `API.sub_loop`. -/
inductive Event where
  | logEnd
  | usernamePwSet
  | loopForever
  deriving DecidableEq

/-- Exceptions that can escape the embedded methods. -/
inductive Exc where
  | connectionError
  deriving DecidableEq

/-- `API.connect`: the `try` block around `self.api.connect` catches only
`KeyboardInterrupt` (logging `>> END <<` and falling through); a
`ConnectionError` propagates immediately; on the non-raising paths
`username_pw_set` runs and the method returns normally.  Returns the executed
steps and the escaping exception, if any. -/
def connectRun : ConnectOutcome → List Event × Option Exc
  | ConnectOutcome.success => ([Event.usernamePwSet], none)
  | ConnectOutcome.connectionError => ([], some Exc.connectionError)
  | ConnectOutcome.keyboardInterrupt => ([Event.logEnd, Event.usernamePwSet], none)

/-- `API.sub_loop`: call `self.connect()`; if it raises, the exception
propagates before `loop_forever` is reached; otherwise enter `loop_forever`. -/
def subLoopRun (o : ConnectOutcome) : List Event × Option Exc :=
  match connectRun o with
  | (evs, some e) => (evs, some e)
  | (evs, none) => (evs ++ [Event.loopForever], none)

end API

/-! Helper lemmas about `GraphDesigner.make`. -/

theorem makeAux_length (nr : Nat) (data : List Int) :
    (GraphDesigner.makeAux nr data).length = data.length := by
  induction data generalizing nr with
  | nil => rfl
  | cons d rest ih => simp [GraphDesigner.makeAux, ih]

theorem makeAux_map_fst (nr : Nat) (data : List Int) :
    (GraphDesigner.makeAux nr data).map Prod.fst =
      (List.range' nr data.length).map (fun i => toString i) := by
  induction data generalizing nr with
  | nil => rfl
  | cons d rest ih => simp [GraphDesigner.makeAux, List.range'_succ, ih]

theorem makeAux_get? (nr : Nat) (data : List Int) (i : Nat) :
    (GraphDesigner.makeAux nr data).get? i =
      (data.get? i).map (fun d => (toString (nr + i), d)) := by
  induction data generalizing nr i with
  | nil => rfl
  | cons d rest ih =>
    cases i with
    | zero => rfl
    | succ j =>
      simp only [GraphDesigner.makeAux, List.get?_cons_succ, ih (nr + 1) j]
      have h : nr + 1 + j = nr + (j + 1) := by omega
      rw [h]

theorem make_map_fst (data : List Int) :
    (GraphDesigner.make data).map Prod.fst =
      (List.range data.length).map (fun i => toString i) := by
  rw [GraphDesigner.make, makeAux_map_fst, List.range_eq_range']

/-- C1: for every trigger invocation, the mapping returned by
`GraphDesigner.make` has exactly as many entries as the samples yielded by
`Model.get_data`, its keys are exactly the decimal indices `0..n-1` in yielded
order, and key `i` maps to the `i`-th yielded sample. -/
theorem make_result_keys (data : List Int) :
    (GraphDesigner.make data).length = data.length ∧
    (GraphDesigner.make data).map Prod.fst =
      (List.range data.length).map (fun i => toString i) ∧
    ∀ i : Nat, (GraphDesigner.make data).get? i =
      (data.get? i).map (fun d => (toString i, d)) := by
  refine ⟨makeAux_length 0 data, make_map_fst data, ?ge⟩
  intro i
  simpa using makeAux_get? 0 data i

/-- C2: if the store yields exactly the samples `[3, 7, 2]`, the message
published on the configured post topic is the stringified mapping
`{'0': 3, '1': 7, '2': 2}` produced by `GraphDesigner.make` (Python `str()` of
the result dict), and `trigger_func` is invoked exactly once. -/
theorem publish_exact_payload :
    API.on_message "graph/trigger" "graph/post" [3, 7, 2]
        (API.MQTTMessage.mk "graph/trigger" "go") =
      ([API.Log.debug ("msg: graph/trigger = " ++ sq ++ "go" ++ sq)], 1,
       [("graph/post",
         "\x7b" ++ sq ++ "0" ++ sq ++ ": 3, " ++ sq ++ "1" ++ sq ++ ": 7, " ++
           sq ++ "2" ++ sq ++ ": 2\x7d")]) := by
  rfl

/-- C4: `API.__on_connect` subscribes to the configured trigger topic for every
result code, both on success (`rc = 0`) and on failure (`rc ≠ 0`). -/
theorem on_connect_always_subscribes (trigger : String) (rc : Int) :
    (API.on_connect trigger rc).2 = [trigger] := by
  unfold API.on_connect
  split <;> rfl

/-- C5: a delivered message whose topic differs from the configured trigger
topic never invokes `trigger_func` and never publishes; it is only logged at
debug level and dropped. -/
theorem non_trigger_no_publish (trigger post : String) (samples : List Int)
    (msg : API.MQTTMessage) (h : msg.topic ≠ trigger) :
    API.on_message trigger post samples msg =
      ([API.Log.debug ("msg: " ++ msg.topic ++ " = " ++ sq ++ msg.payload ++ sq)],
       0, []) := by
  simp [API.on_message, h]

/-- Witness for C5 at a concrete non-trigger message. -/
theorem non_trigger_no_publish_w :
    API.on_message "graph/trigger" "graph/post" [1, 2]
        (API.MQTTMessage.mk "other/topic" "x") =
      ([API.Log.debug ("msg: other/topic = " ++ sq ++ "x" ++ sq)], 0, []) :=
  non_trigger_no_publish "graph/trigger" "graph/post" [1, 2]
    (API.MQTTMessage.mk "other/topic" "x") (by decide)

/-- C6: when the underlying broker connect raises `ConnectionError`, the
exception escapes `API.connect`, and `loop_forever` is never reached in
`API.sub_loop` for that run. -/
theorem connect_failure_raises_no_loop :
    API.connectRun API.ConnectOutcome.connectionError =
      ([], some API.Exc.connectionError) ∧
    API.subLoopRun API.ConnectOutcome.connectionError =
      ([], some API.Exc.connectionError) ∧
    API.Event.loopForever ∉ (API.subLoopRun API.ConnectOutcome.connectionError).1 := by
  decide

/-- Counterexample to C7: a `KeyboardInterrupt` during the broker connect is
caught and not propagated, but the bridge then proceeds with normal operation:
`username_pw_set` runs, `API.connect` returns normally, and `API.sub_loop`
reaches `loop_forever`. -/
theorem keyboard_interrupt_proceeds_cex :
    (API.connectRun API.ConnectOutcome.keyboardInterrupt).2 = none ∧
    API.Event.loopForever ∈ (API.subLoopRun API.ConnectOutcome.keyboardInterrupt).1 := by
  decide

/-- C7 (amended): a `KeyboardInterrupt` raised during `API.connect` is caught
and not propagated as an error (only an end-of-run message is logged), after
which the method continues normally: credentials are set, `connect` returns,
and the bridge proceeds to the receive loop. -/
theorem keyboard_interrupt_caught_continues :
    API.connectRun API.ConnectOutcome.keyboardInterrupt =
      ([API.Event.logEnd, API.Event.usernamePwSet], none) ∧
    API.subLoopRun API.ConnectOutcome.keyboardInterrupt =
      ([API.Event.logEnd, API.Event.usernamePwSet, API.Event.loopForever], none) := by
  decide

/-- C8: with the store state unchanged (the same yielded sample sequence), two
successive trigger messages lead to identical invocation counts and identical
published result sets. -/
theorem unchanged_store_idempotent (trigger post : String) (samples : List Int)
    (m1 m2 : API.MQTTMessage) (h1 : m1.topic = trigger) (h2 : m2.topic = trigger) :
    (API.on_message trigger post samples m1).2 =
      (API.on_message trigger post samples m2).2 := by
  simp [API.on_message, h1, h2]

/-- Witness for C8 at two concrete trigger messages. -/
theorem unchanged_store_idempotent_w :
    (API.on_message "t" "p" [1, 2] (API.MQTTMessage.mk "t" "a")).2 =
      (API.on_message "t" "p" [1, 2] (API.MQTTMessage.mk "t" "b")).2 :=
  unchanged_store_idempotent "t" "p" [1, 2] (API.MQTTMessage.mk "t" "a")
    (API.MQTTMessage.mk "t" "b") rfl rfl

/-- Counterexample to C3: with a backend returning one table containing no
records, the window `("-1d", "0d")` has no matching rows, yet no sentinel is
yielded — the window contributes nothing, and the whole sequence is empty. -/
theorem window_no_rows_skipped_cex :
    ((fun _ : String × String => [([] : List ℚ)]) ("-1d", "0d")).flatten = [] ∧
    ("-1d", "0d") ∈ Model.windows ∧
    Model.windowYield (fun _ => [([] : List ℚ)]) ("-1d", "0d") = [] ∧
    Model.get_data (fun _ => [([] : List ℚ)]) = [] := by
  refine ⟨rfl, by decide, rfl, rfl⟩

/-- C3 (amended): `Model.get_data` yields the sentinel `0` for a window exactly
when the backend returns an empty *table list* for it (the code tests
`len(tables) > 0`); a window whose tables exist but hold no records is skipped
and contributes no element. -/
theorem empty_tables_yield_sentinel (backend : String × String → List (List ℚ))
    (w : String × String) (h : backend w = []) :
    Model.windowYield backend w = [0] := by
  simp [Model.windowYield, h]

/-- Witness for the amended C3 at a concrete backend. -/
theorem empty_tables_yield_sentinel_w :
    Model.windowYield (fun _ => ([] : List (List ℚ))) ("-1d", "0d") = [0] :=
  empty_tables_yield_sentinel (fun _ => []) ("-1d", "0d") rfl

/-- Counterexample to C10: a backend answering every window with one empty
table makes `Model.get_data` yield no values at all, so fewer than 7. -/
theorem seven_windows_at_least_cex :
    (Model.get_data (fun _ => [([] : List ℚ)])).length = 0 ∧
    ¬ 7 ≤ (Model.get_data (fun _ => [([] : List ℚ)])).length := by
  decide

/-- C10 (amended): whenever every window's backend answer is either an empty
table list or contains at least one record, each of the seven windows
contributes at least one element, so `Model.get_data` yields at least 7 values
and the result mapping contains at least the keys `"0"` through `"6"`. -/
theorem seven_windows_at_least (backend : String × String → List (List ℚ))
    (h : ∀ w ∈ Model.windows, backend w = [] ∨ (backend w).flatten ≠ []) :
    7 ≤ (Model.get_data backend).length ∧
    ∀ i : Nat, i < 7 →
      toString i ∈ (GraphDesigner.make (Model.get_data backend)).map Prod.fst := by
  have key : ∀ w ∈ Model.windows, 1 ≤ (Model.windowYield backend w).length := by
    intro w hw
    rcases h w hw with he | hne
    · simp [Model.windowYield, he]
    · have htab : backend w ≠ [] := by
        intro hc
        apply hne
        rw [hc]
        rfl
      have hpos : 0 < (backend w).length := List.length_pos.mpr htab
      obtain ⟨x, hx⟩ := List.exists_mem_of_ne_nil _ hne
      obtain ⟨t, ht, hxt⟩ := List.mem_flatten.mp hx
      have hmem : pyInt x ∈ (backend w).flatMap (fun t => t.map pyInt) :=
        List.mem_flatMap.mpr ⟨t, ht, List.mem_map_of_mem pyInt hxt⟩
      have hne2 : (backend w).flatMap (fun t => t.map pyInt) ≠ [] := by
        intro hc
        rw [hc] at hmem
        exact List.not_mem_nil _ hmem
      simp only [Model.windowYield, if_pos hpos]
      exact List.length_pos.mpr hne2
  have hcat : Model.get_data backend =
      Model.windowYield backend ("-1d", "0d") ++
      (Model.windowYield backend ("-2d", "-1d") ++
      (Model.windowYield backend ("-3d", "-2d") ++
      (Model.windowYield backend ("-4d", "-3d") ++
      (Model.windowYield backend ("-5d", "-4d") ++
      (Model.windowYield backend ("-6d", "-5d") ++
      (Model.windowYield backend ("-7d", "-6d") ++ [])))))) := rfl
  have k1 := key ("-1d", "0d") (by decide)
  have k2 := key ("-2d", "-1d") (by decide)
  have k3 := key ("-3d", "-2d") (by decide)
  have k4 := key ("-4d", "-3d") (by decide)
  have k5 := key ("-5d", "-4d") (by decide)
  have k6 := key ("-6d", "-5d") (by decide)
  have k7 := key ("-7d", "-6d") (by decide)
  have hlen : 7 ≤ (Model.get_data backend).length := by
    rw [hcat]
    simp only [List.length_append, List.length_nil]
    omega
  refine ⟨hlen, ?keys⟩
  intro i hi
  rw [make_map_fst]
  exact List.mem_map_of_mem (fun i => toString i)
    (List.mem_range.mpr (lt_of_lt_of_le hi hlen))

/-- Witness for the amended C10 at a concrete backend with no tables. -/
theorem seven_windows_at_least_w :
    7 ≤ (Model.get_data (fun _ => ([] : List (List ℚ)))).length :=
  (seven_windows_at_least (fun _ => [])
    (by intro w hw; exact Or.inl rfl)).1

/-- C9: every value yielded by `Model.get_data` is either the sentinel `0` or
`int(v)` for some record value `v` of some returned table, where `int(v)` is
truncation toward zero: the ceiling for negative values and the floor
otherwise, discarding any fractional part. -/
theorem yielded_values_are_truncated_ints :
    (∀ (backend : String × String → List (List ℚ)) (x : Int),
        x ∈ Model.get_data backend →
        x = 0 ∨ ∃ v : ℚ,
          (∃ w, w ∈ Model.windows ∧ ∃ t, t ∈ backend w ∧ v ∈ t) ∧ x = pyInt v) ∧
    (∀ q : ℚ, pyInt q = if q < 0 then ⌈q⌉ else ⌊q⌋) := by
  constructor
  · intro backend x hx
    obtain ⟨w, hw, hxw⟩ := List.mem_flatMap.mp hx
    simp only [Model.windowYield] at hxw
    by_cases hp : 0 < (backend w).length
    · rw [if_pos hp] at hxw
      obtain ⟨t, ht, hxt⟩ := List.mem_flatMap.mp hxw
      obtain ⟨v, hv, hxv⟩ := List.mem_map.mp hxt
      exact Or.inr ⟨v, ⟨w, hw, t, ht, hv⟩, hxv.symm⟩
    · rw [if_neg hp] at hxw
      simp only [List.mem_singleton] at hxw
      exact Or.inl hxw
  · intro q
    have hfl : ∀ r : ℚ, 0 ≤ r → r.num.tdiv r.den = ⌊r⌋ := by
      intro r hr
      rw [Int.tdiv_eq_ediv (Rat.num_nonneg.mpr hr) (Int.natCast_nonneg r.den)]
      rw [← Rat.floor_intCast_div_natCast r.num r.den, Rat.num_div_den]
    by_cases h : q < 0
    · rw [if_pos h]
      have h2 : pyInt q = -((-q).num.tdiv (-q).den) := by
        simp [pyInt, Rat.neg_num, Rat.neg_den, Int.neg_tdiv]
      rw [h2, hfl (-q) (by linarith), Int.floor_neg, neg_neg]
    · rw [if_neg h]
      exact hfl q (le_of_not_lt h)

/-- Witness for C9: with a backend whose only record value is `5/2`, the
yielded sample `2` is the truncation of `5/2`. -/
theorem yielded_values_are_truncated_ints_w :
    (2 : Int) = 0 ∨ ∃ v : ℚ,
      (∃ w, w ∈ Model.windows ∧
        ∃ t, t ∈ (fun _ : String × String => [[(5 : ℚ) / 2]]) w ∧ v ∈ t) ∧
      (2 : Int) = pyInt v :=
  yielded_values_are_truncated_ints.1 (fun _ => [[(5 : ℚ) / 2]]) 2 (by
    have hn : ((5 : ℚ) / 2).num = 5 := by norm_num
    have hd : ((5 : ℚ) / 2).den = 2 := by norm_num
    have hv : pyInt ((5 : ℚ) / 2) = 2 := by
      simp only [pyInt, hn, hd]
      decide
    have hl : Model.get_data (fun _ => [[(5 : ℚ) / 2]]) =
        [pyInt ((5 : ℚ) / 2), pyInt ((5 : ℚ) / 2), pyInt ((5 : ℚ) / 2),
         pyInt ((5 : ℚ) / 2), pyInt ((5 : ℚ) / 2), pyInt ((5 : ℚ) / 2),
         pyInt ((5 : ℚ) / 2)] := rfl
    rw [hl, hv]
    decide)

end InfluxGraph
